import Mathlib

/-!
Verification of the `lnd_monitor.py` health-monitoring agent.

This file gives a shallow embedding of the parts of `src/lnd_monitor.py`
that carry the program's state-machine and failure-handling semantics:

* the resilient request layer `make_lnd_request` (lines 133-200),
* the pure formatter `format_satoshis` (lines 242-256),
* the monitoring loop `monitoring_loop` (lines 552-649), modelled as a
  per-tick transition function on an explicit `MonitorState`,
* the authorization decorator `check_authorization` (lines 653-674) and
  the command handler table (lines 708-714), with handler bodies
  abstracted to their externally visible effect traces.

Times are modelled as natural numbers of seconds.  The Python expression
`(a - b).seconds` on `datetime` values is modelled as truncated natural
subtraction of the two timestamps (exact whenever less than a day
elapsed, which is the regime every claim below is about).
-/

namespace LndMonitor

/-- Seconds between monitor ticks (`CHECK_INTERVAL`, default 120). -/
def CHECK_INTERVAL : Nat := 120

/-- Consecutive failed polls before the node is considered offline
(`MAX_RETRIES`, default 3). -/
def MAX_RETRIES : Nat := 3

/-- Cooldown between Tor circuit refreshes in seconds
(`CIRCUIT_REFRESH_INTERVAL`, default 300). -/
def CIRCUIT_REFRESH_INTERVAL : Nat := 300

/-! ## Proxy transport: `make_lnd_request` (lines 133-200) -/

/-- HTTP method of a request (`method` argument of `make_lnd_request`). -/
inductive Method
  | get
  | post
deriving Repr, DecidableEq

/-- Outcome of one network attempt inside `make_lnd_request`:
either an HTTP response with some status code, or one of the exception
classes the Python code distinguishes: a timeout
(`asyncio.TimeoutError` / `aiohttp.ServerTimeoutError`), an exception
whose text contains "connection", or any other exception. -/
inductive AttemptOutcome
  | http (status : Nat)
  | timeout
  | connError
  | otherError
deriving Repr, DecidableEq

/-- Observable result of a `make_lnd_request` call: the returned pair
`(success, payload)` (the JSON payload abstracted to `Option Unit`),
together with how many circuit refreshes the call triggered and how
many network attempts it made. -/
structure ReqResult where
  success : Bool
  payload : Option Unit
  refreshes : Nat
  attempts : Nat
deriving Repr, DecidableEq

/-- Body of `make_lnd_request` (lines 133-200).  `o` is the oracle giving
the outcome of the attempt with a given `retry_count`; `elapsed` models
`(datetime.now() - last_circuit_refresh).seconds` at the moment the
first attempt fails.  `fuel` only makes the recursion structural; the
code's own guards (`retry_count == 0`) bound the depth at 2, so
`fuel = 2` is never exhausted from `make_lnd_request` below.

Branches, in source order:
* HTTP 200: `return True, await response.json()`;
* GET and HTTP 401: log "Invalid or expired macaroon", `return False, None`;
* any other status (GET or POST): `return False, None`;
* timeout: if `retry_count == 0` and `elapsed > CIRCUIT_REFRESH_INTERVAL`,
  refresh the circuit, stamp `last_circuit_refresh`, and retry once with
  `retry_count + 1`; otherwise `return False, None`;
* other exception: if `retry_count == 0` and the text contains
  "connection", refresh the circuit, stamp, pause and retry once with
  `retry_count + 1` (note: with no cooldown condition); otherwise
  `return False, None`. -/
def lndRequestAux (m : Method) (o : Nat → AttemptOutcome) (elapsed : Nat) :
    Nat → Nat → ReqResult
  | 0, _ => ⟨false, none, 0, 0⟩
  | fuel + 1, retryCount =>
    match o retryCount with
    | .http status =>
      match m with
      | .get =>
        if status = 200 then ⟨true, some (), 0, 1⟩
        else if status = 401 then ⟨false, none, 0, 1⟩
        else ⟨false, none, 0, 1⟩
      | .post =>
        if status = 200 then ⟨true, some (), 0, 1⟩
        else ⟨false, none, 0, 1⟩
    | .timeout =>
      if retryCount = 0 ∧ elapsed > CIRCUIT_REFRESH_INTERVAL then
        let r := lndRequestAux m o elapsed fuel (retryCount + 1)
        ⟨r.success, r.payload, r.refreshes + 1, r.attempts + 1⟩
      else ⟨false, none, 0, 1⟩
    | .connError =>
      if retryCount = 0 then
        let r := lndRequestAux m o elapsed fuel (retryCount + 1)
        ⟨r.success, r.payload, r.refreshes + 1, r.attempts + 1⟩
      else ⟨false, none, 0, 1⟩
    | .otherError => ⟨false, none, 0, 1⟩

/-- `make_lnd_request(endpoint, method, data)`: entry point, called with
`retry_count = 0`. -/
def make_lnd_request (m : Method) (o : Nat → AttemptOutcome) (elapsed : Nat) :
    ReqResult :=
  lndRequestAux m o elapsed 2 0

/-! ## Report formatter: `format_satoshis` (lines 242-256) -/

/-- Insert thousands separators into a reversed digit list: a comma goes
before every digit whose position from the right is a positive multiple
of three.  Models Python's `f"{n:,}"` grouping. -/
def commaRev : List Char → Nat → List Char
  | [], _ => []
  | c :: rest, i =>
    if i % 3 = 0 ∧ i ≠ 0 then ',' :: c :: commaRev rest (i + 1)
    else c :: commaRev rest (i + 1)

/-- Decimal rendering of a natural number with thousands separators,
as Python's `f"{n:,}"` produces for a non-negative `int`. -/
def commaGroupNat (n : Nat) : String :=
  String.mk ((commaRev (toString n).data.reverse 0).reverse)

/-- `f"{i:,}"` for a possibly negative `int`. -/
def commaGroupInt (i : Int) : String :=
  if i < 0 then "-" ++ commaGroupNat i.natAbs else commaGroupNat i.toNat

/-- Left-pad the decimal rendering of `m` with zeros to width `k`. -/
def padZeros (k : Nat) (m : Nat) : String :=
  String.mk (List.replicate (k - (toString m).data.length) '0') ++ toString m

/-- Fixed-point rendering of the rational `n / d` with `k` digits after
the decimal point, rounding half to even.  Models Python's
`f"{n/d:.kf}"`: Python first forms the binary double `n/d` and then
formats it, which agrees with exact-rational half-even rounding whenever
`n/d` is exactly representable as a double — in particular for every
value the specification asserts (where the needed digits of `n/d`
terminate within `k` places, so no rounding occurs at all). -/
def fixedPoint (n d k : Nat) : String :=
  let scaled := n * 10 ^ k
  let q := scaled / d
  let r := scaled % d
  let rounded := if 2 * r > d ∨ (2 * r = d ∧ q % 2 = 1) then q + 1 else q
  toString (rounded / 10 ^ k) ++ "." ++ padZeros k (rounded % 10 ^ k)

/-- Branches of `format_satoshis` after the `int(sats)` conversion
(lines 247-256), in source order:
* `sats >= 100_000_000`: `f"{sats/100_000_000:.8f} BTC ({sats:,} sats)"`;
* `sats >= 1_000_000`: `f"{sats/1_000_000:.2f}M sats ({sats:,})"`;
* `sats >= 1_000`: `f"{sats/1_000:.1f}k sats ({sats:,})"`;
* otherwise: `f"{sats:,} sats"`. -/
def formatSatsInt (sats : Int) : String :=
  if sats ≥ 100000000 then
    fixedPoint sats.toNat 100000000 8 ++ " BTC (" ++ commaGroupInt sats ++ " sats)"
  else if sats ≥ 1000000 then
    fixedPoint sats.toNat 1000000 2 ++ "M sats (" ++ commaGroupInt sats ++ ")"
  else if sats ≥ 1000 then
    fixedPoint sats.toNat 1000 1 ++ "k sats (" ++ commaGroupInt sats ++ ")"
  else
    commaGroupInt sats ++ " sats"

/-- Argument of `format_satoshis`: the call sites pass `None`, Python
ints, or strings (JSON fields arrive as strings). -/
inductive SatsArg
  | noneVal
  | intVal (i : Int)
  | strVal (s : String)
deriving Repr, DecidableEq

/-- Python truthiness test `not sats` on a `format_satoshis` argument:
`None`, the int `0` and the empty string are falsy. -/
def pyFalsy : SatsArg → Bool
  | .noneVal => true
  | .intVal i => i == 0
  | .strVal s => s == ""

/-- Python comparison `sats == '0'`: only the string `"0"` compares
equal to `'0'` (an int never equals a string in Python). -/
def pyEqStrZero : SatsArg → Bool
  | .strVal s => s == "0"
  | _ => false

/-- Value of a list of decimal digit characters, or `none` if some
character is not a digit. -/
def digitsValAux : List Char → Nat → Option Nat
  | [], acc => some acc
  | c :: rest, acc =>
    if c.isDigit then digitsValAux rest (acc * 10 + (c.toNat - 48)) else none

/-- Python's `int()` applied to a string: an optional sign followed by
at least one decimal digit (surrounding whitespace and digit-group
underscores, which Python also accepts, are not modelled; no claim
exercises them).  `none` models the `ValueError` Python raises on
anything else. -/
def pyInt (s : String) : Option Int :=
  match s.data with
  | [] => none
  | '-' :: rest =>
    if rest.isEmpty then none
    else (digitsValAux rest 0).map (fun n => -(n : Int))
  | '+' :: rest =>
    if rest.isEmpty then none
    else (digitsValAux rest 0).map (fun n => (n : Int))
  | l => (digitsValAux l 0).map (fun n => (n : Int))

/-- `format_satoshis(sats)` (lines 242-256).  Returns `none` when the
Python function would raise (`int(...)` failing on a non-numeric
string).  The `noneVal` arm is unreachable because `None` is falsy. -/
def format_satoshis (a : SatsArg) : Option String :=
  if pyFalsy a || pyEqStrZero a then some "0 sats"
  else
    match a with
    | .noneVal => none
    | .intVal i => some (formatSatsInt i)
    | .strVal s => (pyInt s).map formatSatsInt

/-! ## Status monitor: `monitoring_loop` (lines 552-649) -/

/-- The module-level monitoring state (lines 77-81): `last_status`
(`None` before the first completed tick, then the last poll result),
`consecutive_failures`, `last_successful_check`, `offline_alert_sent`
and `last_circuit_refresh`. -/
structure MonitorState where
  lastStatus : Option Bool
  consecutiveFailures : Nat
  lastSuccessfulCheck : Nat
  offlineAlertSent : Bool
  lastCircuitRefresh : Nat
deriving Repr, DecidableEq

/-- Externally visible actions of one tick of `monitoring_loop`, in the
order they happen: a Tor circuit refresh (`refresh_tor_circuit`), the
5-second settle pause after a reactive refresh (line 614), the three
kinds of Telegram notification, and the end-of-tick
`asyncio.sleep(CHECK_INTERVAL)` (line 645, skipped by `continue`). -/
inductive Event
  | refresh
  | settle
  | initialOnline
  | backOnline (downtimeMinutes : Nat)
  | offline (lastSuccess : Nat) (failures : Nat)
  | sleepInterval
deriving Repr, DecidableEq

/-- Periodic circuit refresh at the top of a tick (lines 564-567):
if `(current_time - last_circuit_refresh).seconds >=
CIRCUIT_REFRESH_INTERVAL`, refresh and stamp the time. -/
def periodicRefresh (s : MonitorState) (t : Nat) : MonitorState × List Event :=
  if t - s.lastCircuitRefresh ≥ CIRCUIT_REFRESH_INTERVAL then
    ({ s with lastCircuitRefresh := t }, [Event.refresh])
  else (s, [])

/-- Tail of the failure branch (lines 622-639 and 642-645): after the
second-failure special case did not `continue`, send the offline alert
when `consecutive_failures >= MAX_RETRIES and not offline_alert_sent`,
then fall through to `last_status = is_online` (False here) and the
interval sleep.  `pre` carries the events already emitted earlier in
the branch. -/
def offlinePhase (s : MonitorState) (pre : List Event) : MonitorState × List Event :=
  if s.consecutiveFailures ≥ MAX_RETRIES ∧ s.offlineAlertSent = false then
    ({ s with offlineAlertSent := true, lastStatus := some false },
     pre ++ [Event.offline s.lastSuccessfulCheck s.consecutiveFailures,
             Event.sleepInterval])
  else
    ({ s with lastStatus := some false }, pre ++ [Event.sleepInterval])

/-- The poll-and-react part of one tick (lines 570-645).  `isOnline` is
the result of `check_lnd_node()`; `recheckOk` is the result of the extra
`check_lnd_node()` issued at exactly the second consecutive failure
(line 615), and is ignored on every other path.

On success (lines 572-602): reset `consecutive_failures`, set
`last_successful_check = current_time`, then
* `last_status is None`: send the initial online notification;
* `elif offline_alert_sent`: send the back-online notification, whose
  downtime is `(current_time - last_successful_check).seconds // 60`
  computed after `last_successful_check` was already updated;
* else: periodic log only;
then `last_status = is_online` and the interval sleep.

On failure (lines 604-639): increment `consecutive_failures`; at exactly
2, refresh the circuit, stamp `last_circuit_refresh`, settle 5 s and
re-check; if the re-check succeeds, reset the counters and `continue`
(skipping the `last_status` update and the interval sleep); otherwise
fall through to `offlinePhase`. -/
def processCheck (s : MonitorState) (t : Nat) (isOnline recheckOk : Bool) :
    MonitorState × List Event :=
  if isOnline then
    let s := { s with consecutiveFailures := 0, lastSuccessfulCheck := t }
    if s.lastStatus = none then
      ({ s with lastStatus := some true },
       [Event.initialOnline, Event.sleepInterval])
    else if s.offlineAlertSent then
      ({ s with offlineAlertSent := false, lastStatus := some true },
       [Event.backOnline ((t - s.lastSuccessfulCheck) / 60), Event.sleepInterval])
    else
      ({ s with lastStatus := some true }, [Event.sleepInterval])
  else
    let s := { s with consecutiveFailures := s.consecutiveFailures + 1 }
    if s.consecutiveFailures = 2 then
      let s := { s with lastCircuitRefresh := t }
      if recheckOk then
        ({ s with consecutiveFailures := 0, lastSuccessfulCheck := t },
         [Event.refresh, Event.settle])
      else
        offlinePhase s [Event.refresh, Event.settle]
    else
      offlinePhase s []

/-- One full tick of `monitoring_loop` (lines 558-645): periodic circuit
refresh, then poll and react. -/
def monitorTick (s : MonitorState) (t : Nat) (isOnline recheckOk : Bool) :
    MonitorState × List Event :=
  let p := periodicRefresh s t
  let c := processCheck p.1 t isOnline recheckOk
  (c.1, p.2 ++ c.2)

/-- Run the monitor over a list of tick inputs
`(current_time, poll result, re-check result)`, concatenating the
emitted events. -/
def runMonitor (s : MonitorState) : List (Nat × Bool × Bool) → MonitorState × List Event
  | [] => (s, [])
  | (t, onl, rc) :: rest =>
    let c := monitorTick s t onl rc
    let r := runMonitor c.1 rest
    (r.1, c.2 ++ r.2)

/-- Initial values of the monitoring globals (lines 77-81), with `t0`
the process start time. -/
def initialState (t0 : Nat) : MonitorState :=
  { lastStatus := none
    consecutiveFailures := 0
    lastSuccessfulCheck := t0
    offlineAlertSent := false
    lastCircuitRefresh := t0 }

/-- Is this event the OFFLINE notification? -/
def isOfflineEv : Event → Bool
  | .offline _ _ => true
  | _ => false

/-- Is this event the BACK ONLINE (recovery) notification? -/
def isBackOnlineEv : Event → Bool
  | .backOnline _ => true
  | _ => false

/-- Number of OFFLINE notifications in an event list. -/
def countOffline (l : List Event) : Nat := l.countP isOfflineEv

/-- Number of BACK ONLINE notifications in an event list. -/
def countBackOnline (l : List Event) : Nat := l.countP isBackOnlineEv

/-- Alternation checker for the notification discipline.  `b` records
whether an offline alert is outstanding.  An OFFLINE notification is
legal only when no alert is outstanding and makes one outstanding; a
BACK ONLINE notification is legal only when an alert is outstanding and
discharges it; every other event is neutral.  Returns the final flag,
or `none` on a violation. -/
def altRun : Bool → List Event → Option Bool
  | b, [] => some b
  | b, e :: rest =>
    if isOfflineEv e then
      if b then none else altRun true rest
    else if isBackOnlineEv e then
      if b then altRun false rest else none
    else altRun b rest

/-! ## Authorization and command dispatch (lines 653-674, 708-714) -/

/-- The fields of a Telegram update the guard reads:
`update.effective_user.id` and `update.effective_chat.id`. -/
structure TgUpdate where
  userId : Int
  chatId : Int
deriving Repr, DecidableEq

/-- Externally visible effects of a command handler: a call to the LND
node through `make_lnd_request` (with its endpoint and method), or a
Telegram reply (`update.message.reply_text`, content abstracted). -/
inductive Effect
  | lndCall (endpoint : String) (m : Method)
  | reply
deriving Repr, DecidableEq

/-- Does the effect hit the LND node? -/
def isLndCall : Effect → Bool
  | .lndCall _ _ => true
  | .reply => false

/-- A command handler, abstracted to the effect trace it produces for a
given update. -/
def Handler : Type := TgUpdate → List Effect

/-- `check_authorization` decorator (lines 653-666): the wrapper
compares `str(chat_id) != str(TELEGRAM_CHAT_ID)`; on mismatch it logs,
replies "Unauthorized access" and returns without calling the wrapped
handler; otherwise it runs the wrapped handler.  `authChatId` is the
configured `TELEGRAM_CHAT_ID` string. -/
def check_authorization (authChatId : String) (f : Handler) : Handler :=
  fun u => if toString u.chatId ≠ authChatId then [Effect.reply] else f u

/-- `/help` (and `/start`) handler body (lines 286-316): replies with
static text, makes no node call. -/
def help_command : Handler := fun _ => [Effect.reply]

/-- `/info` handler body (lines 318-349): calls `check_lnd_node()`
(GET `/v1/getinfo`), then replies. -/
def info_command : Handler := fun _ =>
  [Effect.lndCall "/v1/getinfo" .get, Effect.reply]

/-- `/balance` handler body (lines 351-382): calls
`get_wallet_balance()` and `get_channel_balance()`, then replies. -/
def balance_command : Handler := fun _ =>
  [Effect.lndCall "/v1/balance/blockchain" .get,
   Effect.lndCall "/v1/balance/channels" .get, Effect.reply]

/-- `/channels` handler body (lines 384-439): calls `get_channels()`
and `get_pending_channels()`, then replies. -/
def channels_command : Handler := fun _ =>
  [Effect.lndCall "/v1/channels" .get,
   Effect.lndCall "/v1/channels/pending" .get, Effect.reply]

/-- `/peers` handler body (lines 441-482): calls `get_peers()` and
`check_lnd_node()`, then replies. -/
def peers_command : Handler := fun _ =>
  [Effect.lndCall "/v1/peers" .get,
   Effect.lndCall "/v1/getinfo" .get, Effect.reply]

/-- `/fees` handler body (lines 484-536): calls
`get_forwarding_history()` (POST `/v1/switch`), then replies. -/
def fees_command : Handler := fun _ =>
  [Effect.lndCall "/v1/switch" .post, Effect.reply]

/-- The command table the application registers (lines 669-674 rebind
every handler to its `check_authorization` wrapper; lines 708-714
register them, with `/start` sharing the help handler). -/
def registeredHandlers (authChatId : String) : List (String × Handler) :=
  [("help", check_authorization authChatId help_command),
   ("start", check_authorization authChatId help_command),
   ("info", check_authorization authChatId info_command),
   ("balance", check_authorization authChatId balance_command),
   ("channels", check_authorization authChatId channels_command),
   ("peers", check_authorization authChatId peers_command),
   ("fees", check_authorization authChatId fees_command)]

/-! ## Helper lemmas -/

/-- `commaGroupInt` on a natural number is plain `commaGroupNat`. -/
lemma commaGroupInt_natCast (n : Nat) : commaGroupInt (n : Int) = commaGroupNat n := by
  simp [commaGroupInt]

/-- `formatSatsInt` on a natural number, with the casts removed. -/
lemma formatSatsInt_natCast (n : Nat) :
    formatSatsInt (n : Int) =
      if n ≥ 100000000 then
        fixedPoint n 100000000 8 ++ " BTC (" ++ commaGroupNat n ++ " sats)"
      else if n ≥ 1000000 then
        fixedPoint n 1000000 2 ++ "M sats (" ++ commaGroupNat n ++ ")"
      else if n ≥ 1000 then
        fixedPoint n 1000 1 ++ "k sats (" ++ commaGroupNat n ++ ")"
      else commaGroupNat n ++ " sats" := by
  have h8 : ((n : Int) ≥ 100000000) ↔ n ≥ 100000000 := by exact_mod_cast Iff.rfl
  have h6 : ((n : Int) ≥ 1000000) ↔ n ≥ 1000000 := by exact_mod_cast Iff.rfl
  have h3 : ((n : Int) ≥ 1000) ↔ n ≥ 1000 := by exact_mod_cast Iff.rfl
  simp [formatSatsInt, h8, h6, h3, commaGroupInt_natCast]

/-- For a nonzero int argument, `format_satoshis` takes the numeric
branch. -/
lemma format_satoshis_intVal (i : Int) (h : i ≠ 0) :
    format_satoshis (.intVal i) = some (formatSatsInt i) := by
  simp [format_satoshis, pyFalsy, pyEqStrZero, h]

/-! ## Claim theorems -/

/-- Claim C7: every request that receives an HTTP 401 response makes
`make_lnd_request` return `(False, None)` with no retry (exactly one
attempt) and no circuit refresh, for both GET and POST. -/
theorem http_401_no_retry (m : Method) (o : Nat → AttemptOutcome) (elapsed : Nat)
    (h : o 0 = .http 401) :
    make_lnd_request m o elapsed = ⟨false, none, 0, 1⟩ := by
  cases m <;> simp [make_lnd_request, lndRequestAux, h]

/-- Witness for C7 at a concrete 401 oracle, for both methods. -/
theorem http_401_no_retry_witness :
    make_lnd_request .get (fun _ => .http 401) 0 = ⟨false, none, 0, 1⟩ ∧
    make_lnd_request .post (fun _ => .http 401) 999 = ⟨false, none, 0, 1⟩ :=
  ⟨http_401_no_retry .get (fun _ => .http 401) 0 rfl,
   http_401_no_retry .post (fun _ => .http 401) 999 rfl⟩

/-- Counterexample to claim C5: the claim says a connection-class error
on the first attempt follows the same policy as a timeout, refreshing
the circuit only when the time since the last refresh exceeds the
refresh interval.  With zero seconds elapsed since the last refresh, a
first-attempt connection error still triggers one circuit refresh (and
a retry), while a first-attempt timeout triggers none: the cooldown
condition of line 181 has no counterpart in the connection-error
branch of line 193. -/
theorem conn_error_cooldown_counterexample :
    (make_lnd_request .get (fun _ => .connError) 0).refreshes = 1 ∧
    (make_lnd_request .get (fun _ => .timeout) 0).refreshes = 0 := by
  exact ⟨rfl, rfl⟩

/-- Claim C5 as amended: a connection-class error on the first attempt
always triggers exactly one circuit refresh and exactly one retried
attempt, regardless of the time since the last circuit refresh (the
refresh-interval cooldown governs only the timeout branch); the call
succeeds exactly when the retried attempt returns HTTP 200, and a
failed retry is returned as failure with no further retries. -/
theorem conn_error_single_retry (m : Method) (o : Nat → AttemptOutcome)
    (elapsed : Nat) (h : o 0 = .connError) :
    (make_lnd_request m o elapsed).refreshes = 1 ∧
    (make_lnd_request m o elapsed).attempts = 2 ∧
    ((make_lnd_request m o elapsed).success = true ↔ o 1 = .http 200) := by
  cases h1 : o 1 with
  | http status =>
    cases m <;> by_cases h2 : status = 200 <;>
      simp [make_lnd_request, lndRequestAux, h, h1, h2]
  | timeout => simp [make_lnd_request, lndRequestAux, h, h1]
  | connError => simp [make_lnd_request, lndRequestAux, h, h1]
  | otherError => simp [make_lnd_request, lndRequestAux, h, h1]

/-- Witness for the amended C5 at a concrete oracle: connection error on
the first attempt, HTTP 200 on the retry, zero seconds since the last
refresh. -/
theorem conn_error_single_retry_witness :
    (make_lnd_request .get (fun n => if n = 0 then .connError else .http 200) 0).refreshes = 1 ∧
    (make_lnd_request .get (fun n => if n = 0 then .connError else .http 200) 0).attempts = 2 ∧
    ((make_lnd_request .get (fun n => if n = 0 then .connError else .http 200) 0).success = true
      ↔ (fun n => if n = 0 then (.connError : AttemptOutcome) else .http 200) 1 = .http 200) :=
  conn_error_single_retry .get (fun n => if n = 0 then .connError else .http 200) 0 rfl

/-- Claim C8: `format_satoshis` returns `"999 sats"` for 999,
`"1.5k sats (1,500)"` for 1500, `"2.50M sats (2,500,000)"` for
2500000 and `"1.50000000 BTC (150,000,000 sats)"` for 150000000, and
follows the unit-scaling thresholds: plain comma-grouped sats below
1,000, "k sats" with one decimal below 1,000,000, "M sats" with two
decimals below 100,000,000, and BTC with 8 decimals plus comma-grouped
sats from 100,000,000 up. -/
theorem format_satoshis_scaling :
    format_satoshis (.intVal 999) = some "999 sats" ∧
    format_satoshis (.intVal 1500) = some "1.5k sats (1,500)" ∧
    format_satoshis (.intVal 2500000) = some "2.50M sats (2,500,000)" ∧
    format_satoshis (.intVal 150000000) = some "1.50000000 BTC (150,000,000 sats)" ∧
    (∀ n : Nat, 0 < n → n < 1000 →
      format_satoshis (.intVal n) = some (commaGroupNat n ++ " sats")) ∧
    (∀ n : Nat, 1000 ≤ n → n < 1000000 →
      format_satoshis (.intVal n) =
        some (fixedPoint n 1000 1 ++ "k sats (" ++ commaGroupNat n ++ ")")) ∧
    (∀ n : Nat, 1000000 ≤ n → n < 100000000 →
      format_satoshis (.intVal n) =
        some (fixedPoint n 1000000 2 ++ "M sats (" ++ commaGroupNat n ++ ")")) ∧
    (∀ n : Nat, 100000000 ≤ n →
      format_satoshis (.intVal n) =
        some (fixedPoint n 100000000 8 ++ " BTC (" ++ commaGroupNat n ++ " sats)")) := by
  refine ⟨rfl, rfl, rfl, rfl, ?_, ?_, ?_, ?_⟩
  · intro n h1 h2
    rw [format_satoshis_intVal n (Int.natCast_ne_zero.mpr (by omega)),
        formatSatsInt_natCast, if_neg (by omega), if_neg (by omega), if_neg (by omega)]
  · intro n h1 h2
    rw [format_satoshis_intVal n (Int.natCast_ne_zero.mpr (by omega)),
        formatSatsInt_natCast, if_neg (by omega), if_neg (by omega), if_pos (by omega)]
  · intro n h1 h2
    rw [format_satoshis_intVal n (Int.natCast_ne_zero.mpr (by omega)),
        formatSatsInt_natCast, if_neg (by omega), if_pos (by omega)]
  · intro n h1
    rw [format_satoshis_intVal n (Int.natCast_ne_zero.mpr (by omega)),
        formatSatsInt_natCast, if_pos (by omega)]

/-- Witness for the range parts of C8: 500 sats takes the plain branch
and evaluates to `"500 sats"`. -/
theorem format_satoshis_scaling_witness :
    format_satoshis (.intVal 500) = some (commaGroupNat 500 ++ " sats") ∧
    commaGroupNat 500 ++ " sats" = "500 sats" :=
  ⟨format_satoshis_scaling.2.2.2.2.1 500 (by decide) (by decide), rfl⟩

/-- Claim C10: every falsy argument of `format_satoshis` (`None`, the
int 0, the empty string) and the string `"0"` yield exactly `"0 sats"`
without the `int(...)` conversion being attempted (in particular
`None`, on which `int` would raise, still returns normally); every
other argument is converted with `int` before formatting, so numeric
strings are accepted. -/
theorem format_satoshis_falsy :
    format_satoshis .noneVal = some "0 sats" ∧
    format_satoshis (.intVal 0) = some "0 sats" ∧
    format_satoshis (.strVal "") = some "0 sats" ∧
    format_satoshis (.strVal "0") = some "0 sats" ∧
    format_satoshis (.strVal "1500") = some "1.5k sats (1,500)" ∧
    (∀ i : Int, i ≠ 0 → format_satoshis (.intVal i) = some (formatSatsInt i)) ∧
    (∀ s : String, s ≠ "" → s ≠ "0" →
      format_satoshis (.strVal s) = (pyInt s).map formatSatsInt) := by
  refine ⟨rfl, rfl, rfl, rfl, rfl, format_satoshis_intVal, ?_⟩
  intro s h1 h2
  simp [format_satoshis, pyFalsy, pyEqStrZero, h1, h2]

/-- Witness for the conditional parts of C10: the nonzero int 999 and
the numeric string "25" take the conversion path. -/
theorem format_satoshis_falsy_witness :
    format_satoshis (.intVal 999) = some (formatSatsInt 999) ∧
    format_satoshis (.strVal "25") = (pyInt "25").map formatSatsInt :=
  ⟨format_satoshis_falsy.2.2.2.2.2.1 999 (by decide),
   format_satoshis_falsy.2.2.2.2.2.2 "25" (by decide) (by decide)⟩

/-- Claim C9: an inbound command whose source chat id does not match
the configured authorized chat id (`str(chat_id) != str(TELEGRAM_CHAT_ID)`)
makes every registered command handler return only the rejection reply:
the wrapped handler body does not run, and no call to
`make_lnd_request` (through any of its wrappers) is triggered. -/
theorem unauthorized_no_node_call (authChatId : String) (u : TgUpdate)
    (h : toString u.chatId ≠ authChatId) :
    ∀ p ∈ registeredHandlers authChatId,
      p.2 u = [Effect.reply] ∧ (p.2 u).all (fun e => !isLndCall e) = true := by
  intro p hp
  simp only [registeredHandlers, List.mem_cons, List.not_mem_nil, or_false] at hp
  rcases hp with rfl | rfl | rfl | rfl | rfl | rfl | rfl <;>
    simp [check_authorization, h, isLndCall]

/-- Witness for C9: chat id 999 against configured id "123456"; the
registered `/info` handler replies with the rejection only and issues
no node call. -/
theorem unauthorized_no_node_call_witness :
    check_authorization "123456" info_command ⟨42, 999⟩ = [Effect.reply] ∧
    (check_authorization "123456" info_command ⟨42, 999⟩).all
      (fun e => !isLndCall e) = true :=
  unauthorized_no_node_call "123456" ⟨42, 999⟩ (by decide)
    ("info", check_authorization "123456" info_command)
    (List.mem_cons_of_mem _ (List.mem_cons_of_mem _ (List.mem_cons_self _ _)))

/-- Claim C3, evaluated at a failing input.  The claim says the BACK
ONLINE notification reports `now - lastSuccessfulCheckTime` as it was
before this tick's update.  In the code, line 574 overwrites
`last_successful_check = current_time` before line 593 computes
`(current_time - last_successful_check).seconds // 60`, so the reported
downtime is always 0.  Here the last successful check was at `t = 0`
and the node recovers at `t = 600` (10 minutes of downtime): the tick
clears the alert and transitions to online as claimed, but its BACK
ONLINE notification carries downtime 0, not the 10 minutes the claim
requires. -/
theorem back_online_downtime_zero :
    monitorTick ⟨some false, 3, 0, true, 600⟩ 600 true true
      = (⟨some true, 0, 600, false, 600⟩, [Event.backOnline 0, Event.sleepInterval])
    ∧ (600 - (0 : Nat)) / 60 = 10 := by
  exact ⟨rfl, rfl⟩

/-- Counterexample to claim C6: the claim says a successful re-check at
the 2nd consecutive failure is treated as a success per step 3,
including the step-3 notification logic (the initial ONLINE
notification when the prior state was UNKNOWN) and the state update.
Starting from `last_status = None` with one prior failure, a failed
poll followed by a successful re-check emits no notification at all
(only the reactive refresh and settle delay) and leaves `last_status`
at `None`: lines 616-620 only reset `consecutive_failures` and
`last_successful_check` before `continue`, never reaching the step-3
branch (lines 572-602) or the `last_status` update (line 642). -/
theorem recheck_success_counterexample :
    (monitorTick ⟨none, 1, 0, false, 100⟩ 100 false true).2
      = [Event.refresh, Event.settle]
    ∧ (monitorTick ⟨none, 1, 0, false, 100⟩ 100 false true).1.lastStatus = none := by
  exact ⟨rfl, rfl⟩

/-- Claim C6 as amended: when `consecutiveFailures` reaches exactly 2
within a tick, the monitor performs one reactive circuit refresh
(stamping the refresh time), waits the settle delay and issues one
extra re-check; if the re-check succeeds, it only resets
`consecutiveFailures` to 0 and updates `lastSuccessfulCheckTime`, then
continues to the next tick without the interval sleep — it does not run
the step-3 notification logic and leaves `lastStatus` (and
`offlineAlertSent`) unchanged. -/
theorem recheck_success_resets_only (s : MonitorState) (t : Nat)
    (hcf : s.consecutiveFailures = 1)
    (hper : t - s.lastCircuitRefresh < CIRCUIT_REFRESH_INTERVAL) :
    monitorTick s t false true =
      ({ s with consecutiveFailures := 0, lastSuccessfulCheck := t,
                lastCircuitRefresh := t },
       [Event.refresh, Event.settle]) := by
  obtain ⟨ls, cf, lsc, oas, lcr⟩ := s
  simp only at hcf hper
  subst hcf
  simp [monitorTick, periodicRefresh, processCheck, Nat.not_le.mpr hper]

/-- Witness for the amended C6 at a concrete state: one prior failure,
online history, re-check succeeds at `t = 150`. -/
theorem recheck_success_resets_only_witness :
    monitorTick ⟨some true, 1, 40, false, 100⟩ 150 false true
      = (⟨some true, 0, 150, false, 150⟩, [Event.refresh, Event.settle]) :=
  recheck_success_resets_only ⟨some true, 1, 40, false, 100⟩ 150 rfl (by decide)

/-- Claim C4: the `MonitorState` invariant is preserved by every tick:
if `offlineAlertSent` implies `lastStatus` is offline before a tick,
the same holds after it, for every poll and re-check outcome.
Moreover, when an offline alert is outstanding, the tick clears
`offlineAlertSent` exactly when the poll succeeds (the first successful
poll after the alert), and that clearing tick emits exactly one BACK
ONLINE notification. -/
theorem offline_alert_invariant (s : MonitorState) (t : Nat) (onl rc : Bool)
    (hInv : s.offlineAlertSent = true → s.lastStatus = some false) :
    ((monitorTick s t onl rc).1.offlineAlertSent = true →
      (monitorTick s t onl rc).1.lastStatus = some false)
    ∧ (s.offlineAlertSent = true →
      (((monitorTick s t onl rc).1.offlineAlertSent = false) ↔ onl = true))
    ∧ (s.offlineAlertSent = true → onl = true →
      countBackOnline (monitorTick s t onl rc).2 = 1) := by
  obtain ⟨ls, cf, lsc, oas, lcr⟩ := s
  simp only at hInv
  simp only [monitorTick, periodicRefresh, processCheck, offlinePhase,
    countBackOnline]
  cases onl <;> cases oas <;>
    split_ifs <;>
      simp_all [List.countP_cons, List.countP_append, isBackOnlineEv]

/-- Witness for C4: a state with the alert outstanding while offline,
recovering at `t = 120`; the recovery tick emits exactly one BACK
ONLINE notification. -/
theorem offline_alert_invariant_witness :
    countBackOnline (monitorTick ⟨some false, 3, 0, true, 0⟩ 120 true true).2 = 1 :=
  (offline_alert_invariant ⟨some false, 3, 0, true, 0⟩ 120 true true
    (fun _ => rfl)).2.2 rfl rfl

/-- `altRun` splits over list concatenation. -/
lemma altRun_append (b : Bool) (l1 l2 : List Event) :
    altRun b (l1 ++ l2) = (altRun b l1).bind (fun b2 => altRun b2 l2) := by
  induction l1 generalizing b with
  | nil => simp [altRun]
  | cons e rest ih =>
    simp only [List.cons_append, altRun]
    split_ifs <;> simp [ih]

/-- One tick respects the alternation discipline: starting from the
outstanding-alert flag of the incoming state, the tick's events are
legal and leave the flag at the outgoing state's value. -/
lemma tick_altRun (s : MonitorState) (t : Nat) (onl rc : Bool) :
    altRun s.offlineAlertSent (monitorTick s t onl rc).2
      = some (monitorTick s t onl rc).1.offlineAlertSent := by
  obtain ⟨ls, cf, lsc, oas, lcr⟩ := s
  simp only [monitorTick, periodicRefresh, processCheck, offlinePhase]
  cases onl <;> cases oas <;>
    split_ifs <;>
      simp_all [altRun, isOfflineEv, isBackOnlineEv]

/-- A whole run respects the alternation discipline. -/
lemma run_altRun (s : MonitorState) (inputs : List (Nat × Bool × Bool)) :
    altRun s.offlineAlertSent (runMonitor s inputs).2
      = some (runMonitor s inputs).1.offlineAlertSent := by
  induction inputs generalizing s with
  | nil => simp [runMonitor, altRun]
  | cons hd tl ih =>
    obtain ⟨t, onl, rc⟩ := hd
    simp only [runMonitor]
    rw [altRun_append, tick_altRun]
    exact ih (monitorTick s t onl rc).1

/-- Claim C2: over every sequence of poll outcomes from the initial
state, the OFFLINE and BACK ONLINE notifications strictly alternate
starting with OFFLINE (`altRun` from `false` accepts the emitted event
trace): an OFFLINE notification is emitted only when no offline alert
is outstanding — hence at most once per maximal failure run reaching
the threshold — and a BACK ONLINE notification only when one is
outstanding — hence at most once per subsequent recovery.  The
initial-online notification is a separate event kind that `altRun`
treats as neutral: it does not count as a recovery. -/
theorem notification_alternation (t0 : Nat) (inputs : List (Nat × Bool × Bool)) :
    altRun false (runMonitor (initialState t0) inputs).2
      = some (runMonitor (initialState t0) inputs).1.offlineAlertSent :=
  run_altRun (initialState t0) inputs

/-- OFFLINE notifications add up over concatenated event lists. -/
lemma countOffline_append (l1 l2 : List Event) :
    countOffline (l1 ++ l2) = countOffline l1 + countOffline l2 :=
  List.countP_append isOfflineEv l1 l2

/-- BACK ONLINE notifications add up over concatenated event lists. -/
lemma countBackOnline_append (l1 l2 : List Event) :
    countBackOnline (l1 ++ l2) = countBackOnline l1 + countBackOnline l2 :=
  List.countP_append isBackOnlineEv l1 l2

/-- A failed poll whose new failure count is neither 2 nor at the
threshold: the counter increments, nothing else of interest changes,
and no notification is emitted. -/
lemma tick_fail_below (s : MonitorState) (t : Nat) (rc : Bool)
    (h2 : s.consecutiveFailures + 1 ≠ 2)
    (h3 : s.consecutiveFailures + 1 < MAX_RETRIES) :
    (monitorTick s t false rc).1.lastStatus = some false ∧
    (monitorTick s t false rc).1.consecutiveFailures = s.consecutiveFailures + 1 ∧
    (monitorTick s t false rc).1.lastSuccessfulCheck = s.lastSuccessfulCheck ∧
    (monitorTick s t false rc).1.offlineAlertSent = s.offlineAlertSent ∧
    countOffline (monitorTick s t false rc).2 = 0 ∧
    countBackOnline (monitorTick s t false rc).2 = 0 := by
  obtain ⟨ls, cf, lsc, oas, lcr⟩ := s
  simp only at h2 h3
  simp only [monitorTick, periodicRefresh, processCheck, offlinePhase,
    countOffline, countBackOnline]
  split_ifs <;>
    simp_all [List.countP_cons, List.countP_append, isOfflineEv, isBackOnlineEv] <;>
    omega

/-- The second consecutive failed poll with a failing re-check: the
counter reaches 2, the reactive refresh and settle happen, and no
notification is emitted (2 is below the threshold of 3). -/
lemma tick_fail_second (s : MonitorState) (t : Nat)
    (h : s.consecutiveFailures = 1) :
    (monitorTick s t false false).1.lastStatus = some false ∧
    (monitorTick s t false false).1.consecutiveFailures = 2 ∧
    (monitorTick s t false false).1.lastSuccessfulCheck = s.lastSuccessfulCheck ∧
    (monitorTick s t false false).1.offlineAlertSent = s.offlineAlertSent ∧
    countOffline (monitorTick s t false false).2 = 0 ∧
    countBackOnline (monitorTick s t false false).2 = 0 := by
  obtain ⟨ls, cf, lsc, oas, lcr⟩ := s
  simp only at h
  subst h
  simp only [monitorTick, periodicRefresh, processCheck, offlinePhase,
    countOffline, countBackOnline]
  split_ifs <;>
    simp_all [List.countP_cons, List.countP_append, isOfflineEv, isBackOnlineEv,
      MAX_RETRIES]

/-- The second consecutive failed poll with a successful re-check: the
counter resets, `last_status` and the alert flag are untouched, and no
notification is emitted. -/
lemma tick_fail_second_recheck (s : MonitorState) (t : Nat)
    (h : s.consecutiveFailures = 1) :
    (monitorTick s t false true).1.lastStatus = s.lastStatus ∧
    (monitorTick s t false true).1.consecutiveFailures = 0 ∧
    (monitorTick s t false true).1.offlineAlertSent = s.offlineAlertSent ∧
    countOffline (monitorTick s t false true).2 = 0 ∧
    countBackOnline (monitorTick s t false true).2 = 0 := by
  obtain ⟨ls, cf, lsc, oas, lcr⟩ := s
  simp only at h
  subst h
  simp only [monitorTick, periodicRefresh, processCheck, offlinePhase,
    countOffline, countBackOnline]
  split_ifs <;>
    simp_all [List.countP_cons, List.countP_append, isOfflineEv, isBackOnlineEv]

/-- The third consecutive failed poll with no alert outstanding emits
exactly one OFFLINE notification and no recovery notification. -/
lemma tick_fail_third (s : MonitorState) (t : Nat) (rc : Bool)
    (hcf : s.consecutiveFailures = 2) (hoas : s.offlineAlertSent = false) :
    countOffline (monitorTick s t false rc).2 = 1 ∧
    countBackOnline (monitorTick s t false rc).2 = 0 := by
  obtain ⟨ls, cf, lsc, oas, lcr⟩ := s
  simp only at hcf hoas
  subst hcf; subst hoas
  simp only [monitorTick, periodicRefresh, processCheck, offlinePhase,
    countOffline, countBackOnline]
  split_ifs <;>
    simp_all [List.countP_cons, List.countP_append, isOfflineEv, isBackOnlineEv,
      MAX_RETRIES]

/-- A successful poll with no alert outstanding emits no OFFLINE and no
BACK ONLINE notification (at most the uncounted initial-online one). -/
lemma tick_success_no_alert (s : MonitorState) (t : Nat) (rc : Bool)
    (hoas : s.offlineAlertSent = false) :
    countOffline (monitorTick s t true rc).2 = 0 ∧
    countBackOnline (monitorTick s t true rc).2 = 0 := by
  obtain ⟨ls, cf, lsc, oas, lcr⟩ := s
  simp only at hoas
  subst hoas
  simp only [monitorTick, periodicRefresh, processCheck, offlinePhase,
    countOffline, countBackOnline]
  split_ifs <;>
    simp_all [List.countP_cons, List.countP_append, isOfflineEv, isBackOnlineEv]

/-- Claim C1: with `MAX_RETRIES = 3`, starting from zero consecutive
failures and no outstanding alert, three consecutive poll failures
(every re-check failing too) emit the OFFLINE notification exactly on
the third failed tick and never earlier; and any failure run of length
strictly below 3 — with arbitrary re-check outcomes — followed by a
successful poll emits no OFFLINE and no BACK ONLINE notification at
all. -/
theorem offline_threshold_boundary (s : MonitorState)
    (hcf : s.consecutiveFailures = 0) (hal : s.offlineAlertSent = false) :
    (∀ t1 t2 t3 : Nat,
      countOffline (monitorTick s t1 false false).2 = 0 ∧
      countOffline (monitorTick (monitorTick s t1 false false).1 t2 false false).2 = 0 ∧
      countOffline (monitorTick (monitorTick (monitorTick s t1 false false).1
        t2 false false).1 t3 false false).2 = 1)
    ∧ (∀ (fails : List (Nat × Bool)) (ts : Nat) (rs : Bool), fails.length < 3 →
      countOffline
        (runMonitor s (fails.map (fun p => (p.1, false, p.2)) ++ [(ts, true, rs)])).2 = 0 ∧
      countBackOnline
        (runMonitor s (fails.map (fun p => (p.1, false, p.2)) ++ [(ts, true, rs)])).2 = 0) := by
  constructor
  · intro t1 t2 t3
    have h1 := tick_fail_below s t1 false (by omega) (by rw [hcf]; decide)
    have hcf1 : (monitorTick s t1 false false).1.consecutiveFailures = 1 := by
      rw [h1.2.1, hcf]
    have h2 := tick_fail_second (monitorTick s t1 false false).1 t2 hcf1
    have hoas2 :
        (monitorTick (monitorTick s t1 false false).1 t2 false false).1.offlineAlertSent
          = false := by
      rw [h2.2.2.2.1, h1.2.2.2.1, hal]
    have h3 := tick_fail_third
      (monitorTick (monitorTick s t1 false false).1 t2 false false).1 t3 false
      h2.2.1 hoas2
    exact ⟨h1.2.2.2.2.1, h2.2.2.2.2.1, h3.1⟩
  · intro fails ts rs hlen
    rcases fails with _ | ⟨⟨ta, ra⟩, _ | ⟨⟨tb, rb⟩, _ | ⟨⟨tc, rc2⟩, rest⟩⟩⟩
    · have h1 := tick_success_no_alert s ts rs hal
      simp only [List.map_nil, List.nil_append, runMonitor]
      rw [List.append_nil]
      exact h1
    · have h1 := tick_fail_below s ta ra (by omega) (by rw [hcf]; decide)
      have hoas1 : (monitorTick s ta false ra).1.offlineAlertSent = false := by
        rw [h1.2.2.2.1, hal]
      have h2 := tick_success_no_alert (monitorTick s ta false ra).1 ts rs hoas1
      simp only [List.map_cons, List.map_nil, List.cons_append, List.nil_append,
        runMonitor]
      rw [List.append_nil, countOffline_append, countBackOnline_append,
        h1.2.2.2.2.1, h1.2.2.2.2.2, h2.1, h2.2]
      exact ⟨rfl, rfl⟩
    · have h1 := tick_fail_below s ta ra (by omega) (by rw [hcf]; decide)
      have hcf1 : (monitorTick s ta false ra).1.consecutiveFailures = 1 := by
        rw [h1.2.1, hcf]
      have hoas1 : (monitorTick s ta false ra).1.offlineAlertSent = false := by
        rw [h1.2.2.2.1, hal]
      cases rb
      · have h2 := tick_fail_second (monitorTick s ta false ra).1 tb hcf1
        have hoas2 :
            (monitorTick (monitorTick s ta false ra).1 tb false false).1.offlineAlertSent
              = false := by
          rw [h2.2.2.2.1, hoas1]
        have h3 := tick_success_no_alert
          (monitorTick (monitorTick s ta false ra).1 tb false false).1 ts rs hoas2
        simp only [List.map_cons, List.map_nil, List.cons_append, List.nil_append,
          runMonitor]
        rw [List.append_nil, countOffline_append, countOffline_append,
          countBackOnline_append, countBackOnline_append,
          h1.2.2.2.2.1, h1.2.2.2.2.2, h2.2.2.2.2.1, h2.2.2.2.2.2, h3.1, h3.2]
        exact ⟨rfl, rfl⟩
      · have h2 := tick_fail_second_recheck (monitorTick s ta false ra).1 tb hcf1
        have hoas2 :
            (monitorTick (monitorTick s ta false ra).1 tb false true).1.offlineAlertSent
              = false := by
          rw [h2.2.2.1, hoas1]
        have h3 := tick_success_no_alert
          (monitorTick (monitorTick s ta false ra).1 tb false true).1 ts rs hoas2
        simp only [List.map_cons, List.map_nil, List.cons_append, List.nil_append,
          runMonitor]
        rw [List.append_nil, countOffline_append, countOffline_append,
          countBackOnline_append, countBackOnline_append,
          h1.2.2.2.2.1, h1.2.2.2.2.2, h2.2.2.2.1, h2.2.2.2.2, h3.1, h3.2]
        exact ⟨rfl, rfl⟩
    · simp only [List.length_cons] at hlen
      omega

/-- Witness for C1 from the initial state: three failures at times 10,
20, 30 produce the OFFLINE notification on the third tick, and a
two-failure run followed by a success at time 40 produces no OFFLINE
and no BACK ONLINE notification. -/
theorem offline_threshold_boundary_witness :
    countOffline (monitorTick (monitorTick (monitorTick (initialState 0)
      10 false false).1 20 false false).1 30 false false).2 = 1 ∧
    countOffline (runMonitor (initialState 0)
      [(10, false, false), (20, false, false), (40, true, true)]).2 = 0 ∧
    countBackOnline (runMonitor (initialState 0)
      [(10, false, false), (20, false, false), (40, true, true)]).2 = 0 := by
  refine ⟨((offline_threshold_boundary (initialState 0) rfl rfl).1 10 20 30).2.2, ?_, ?_⟩
  · exact ((offline_threshold_boundary (initialState 0) rfl rfl).2
      [(10, false), (20, false)] 40 true (by decide)).1
  · exact ((offline_threshold_boundary (initialState 0) rfl rfl).2
      [(10, false), (20, false)] 40 true (by decide)).2

end LndMonitor
